import Mathlib

/-!
Verification development for the cscope driver core
(src/src/cscope/cscope.ts and the query-result parser module).

The TypeScript source is shallowly embedded:
pure computations become Lean functions, promise-based control flow is
modelled by explicit settlement states, and the external collaborators
(process runner, text-document provider, the ECMAScript regex engine
behind String.prototype.search) are passed in as explicit parameters or
modelled on the fragment the code exercises.
-/

/-- One structured query result, the data carried by a CscopeItem built
from a vscode.Range (line, column) pair at each end. -/
structure ItemM where
  file : String
  name : String
  startLine : Int
  startCol : Int
  endLine : Int
  endCol : Int
  rest : String
  text : String
deriving DecidableEq

namespace Cscope

/-! ## Build queue model (Cscope.constructor, Cscope.buildSingle)

A slot of `buildQueue` holds a promise.  At an observation instant a
promise is either already fulfilled, already rejected, or still pending;
a pending promise carries its eventual fate: `some true` if it will
fulfill, `some false` if it will reject, `none` if it never settles. -/

inductive PromiseSt where
  | pending (outcome : Option Bool)
  | fulfilled
  | rejected
deriving DecidableEq

/-- Models the probe `promiseState(p) != 'pending'` used by the slot scan. -/
def PromiseSt.isPending : PromiseSt → Bool
  | .pending _ => true
  | _ => false

/-- Whether the promise eventually fulfills: this is what `Promise.all`
needs of every member before its fulfillment callback runs. -/
def PromiseSt.eventuallyFulfills : PromiseSt → Bool
  | .pending b => b = some true
  | .fulfilled => true
  | .rejected => false

/-- Models the scan loop of buildSingle (lines 86-94): the index of the
first slot whose stored promise is not pending, none when every slot is
still pending. -/
def findSettled : List PromiseSt → Option Nat
  | [] => none
  | s :: rest => if s.isPending then (findSettled rest).map (· + 1) else some 0

/-- Models line 99, `buildQueue.filter(async (p) => await promiseState(p) == 'pending')`:
the predicate is an async function, so it returns a Promise object, which
is truthy for every element; the filter therefore keeps every slot's old
promise, not only the pending ones. -/
def jsFilterAsyncPending (q : List PromiseSt) : List PromiseSt := q

/-- Modelled from the spec: the set of slots still pending at the moment
of submission, the wait set that section 4.1 step 3 prescribes.  Kept for
comparison with `jsFilterAsyncPending`, which is what the code computes. -/
def specPendingSet (q : List PromiseSt) : List PromiseSt :=
  q.filter (·.isPending)

instance exceptDecEq {ε α : Type} [DecidableEq ε] [DecidableEq α] :
    DecidableEq (Except ε α) := fun x y =>
  match x, y with
  | .ok a, .ok b =>
    if h : a = b then .isTrue (h ▸ rfl) else .isFalse (fun hc => h (Except.ok.inj hc))
  | .error a, .error b =>
    if h : a = b then .isTrue (h ▸ rfl) else .isFalse (fun hc => h (Except.error.inj hc))
  | .ok _, .error _ => .isFalse (fun hc => Except.noConfusion hc)
  | .error _, .ok _ => .isFalse (fun hc => Except.noConfusion hc)

/-- Result of one buildSingle submission:
the queue after the call, the outcome handed to the caller
(`Except.error "queue full"` models `Promise.reject('queue full')`,
`Except.ok i` acceptance at slot `i`), the list of old promises the new
operation's `Promise.all` waits on, and whether the build process is ever
spawned (the `Promise.all(...).then` fulfillment callback runs iff every
member of the wait set eventually fulfills). -/
structure SubmitResult where
  queue : List PromiseSt
  submitted : Except String Nat
  waitSet : List PromiseSt
  spawns : Bool
deriving DecidableEq

/-- Models Cscope.buildSingle (lines 85-139) at the scheduling level.
`procOk` is the eventual exit status of the spawned process (true models
exit code 0).  The new operation stored in the chosen slot is pending; it
eventually fulfills iff the spawn happens and the process succeeds, and it
never settles at all when the spawn callback never runs. -/
def buildSingle (q : List PromiseSt) (procOk : Bool) : SubmitResult :=
  match findSettled q with
  | none => ⟨q, .error "queue full", [], false⟩
  | some i =>
    let ws := jsFilterAsyncPending q
    let sp := ws.all PromiseSt.eventuallyFulfills
    ⟨q.set i (.pending (if sp then (if procOk then some true else some false) else none)),
      .ok i, ws, sp⟩

/-- Models the constructor (lines 55-58): both slots hold
`Promise.resolve('')`, an already fulfilled promise. -/
def initialQueue : List PromiseSt := [.fulfilled, .fulfilled]

/-! ## Facade aggregation (Cscope.build, Cscope.query)

Each directory's settled outcome of awaiting buildSingle / querySingle is
abstracted as `run d : Except String String` (`ok` carries the trimmed
stdout the operation resolved with, `error` the string it rejected with);
the facade's loops, catches, log emissions and aggregation are embedded
directly. -/

/-- Per-directory outcome string of build (lines 70-76): the resolved
value on success, the string interpolation of the rejection on failure. -/
def buildOutcomeStr : Except String String → String
  | .ok s => s
  | .error e => "Error: " ++ e

/-- The `results` array accumulated by build, in directory order. -/
def buildResults (run : String → Except String String) (dirs : List String) : List String :=
  dirs.map (fun d => buildOutcomeStr (run d))

/-- Models Cscope.build (lines 64-79): join the per-directory outcomes
with newlines. -/
def build (run : String → Except String String) (dirs : List String) : String :=
  String.intercalate "\n" (buildResults run dirs)

/-- The error log lines build emits (line 74), one per failing directory. -/
def buildLogs (run : String → Except String String) (dirs : List String) : List String :=
  dirs.filterMap fun d => match run d with
    | .ok _ => none
    | .error _ => some ("Failed to build database for " ++ d)

/-! ## Query facade and the kind-to-flag mapping -/

/-- Models the frozen QueryType object (lines 10-20); an absent key reads
as `undefined`, modelled by `none`. -/
def QueryType : String → Option String
  | "symbol" => some "-0"
  | "definition" => some "-1"
  | "callee" => some "-2"
  | "caller" => some "-3"
  | "text" => some "-4"
  | "egrep" => some "-5"
  | "file" => some "-6"
  | "include" => some "-7"
  | "set" => some "-8"
  | _ => none

/-- Models the argument vector built by querySingle (line 173):
`[queryArgs, '-f', db, QueryType[type], word]`.  Entries are Options so
that an unknown kind's `undefined` entry is representable. -/
def querySingleArgs (queryArgs db ty word : String) : List (Option String) :=
  [some queryArgs, some "-f", some db, QueryType ty, some word]

/-- Models Cscope.query (lines 146-160): per directory, the settled
outcome of awaiting querySingle is `runQ d`; successes contribute their
items in order, a caught failure contributes none and the loop continues. -/
def queryItems (runQ : String → Except String (List ItemM)) :
    List String → List ItemM
  | [] => []
  | d :: ds =>
    (match runQ d with
      | .ok xs => xs
      | .error _ => []) ++ queryItems runQ ds

/-- The error log lines query emits (line 156), one per failing directory. -/
def queryLogs (runQ : String → Except String (List ItemM)) (dirs : List String) :
    List String :=
  dirs.filterMap fun d => match runQ d with
    | .ok _ => none
    | .error _ => some ("Failed to query in " ++ d)

end Cscope

namespace CscopeQuery

/-! ## JavaScript string primitives used by CscopeQuery.setResults

These embed the exact ECMAScript semantics of the String methods the
parser calls, on the fragment it exercises (single-character needle for
indexOf, decimal numerals for parseInt). -/

/-- Models String.prototype.indexOf(c, start) for a one-character needle:
a negative start is clamped to 0, the result is the index of the first
occurrence at or after start, or -1 when there is none. -/
def jsIndexOfFrom (s : String) (c : Char) (start : Int) : Int :=
  let st : Nat := start.toNat
  match (s.data.drop st).findIdx? (· = c) with
  | some k => ((st + k : Nat) : Int)
  | none => -1

/-- Clamps one slice bound to [0, len] the way String.prototype.slice
does: a negative index counts from the end (floored at 0), a positive one
is capped at the length. -/
def jsSliceBound (len : Nat) (i : Int) : Nat :=
  if i < 0 then (len + i).toNat else min i.toNat len

/-- Models String.prototype.slice(st, en). -/
def jsSlice (s : String) (st en : Int) : String :=
  let a := jsSliceBound s.length st
  let b := jsSliceBound s.length en
  String.mk ((s.data.drop a).take (b - a))

/-- Models parseInt on decimal input: skip leading whitespace, accept an
optional sign, then require at least one digit and read the maximal digit
prefix; `none` models NaN.  (The hexadecimal 0x form never occurs here:
the parsed field is a cscope line number.) -/
def jsParseInt (s : String) : Option Int :=
  let cs := s.data.dropWhile (fun c => c = ' ' ∨ c = '\t' ∨ c = '\n' ∨ c = '\r')
  let signAndDigits : Bool × List Char :=
    match cs with
    | '-' :: r => (true, r)
    | '+' :: r => (false, r)
    | r => (false, r)
  let ds := signAndDigits.2.takeWhile Char.isDigit
  if ds.isEmpty then none
  else
    let n : Nat := ds.foldl (fun a c => a * 10 + (c.toNat - '0'.toNat)) 0
    some (if signAndDigits.1 then -(n : Int) else (n : Int))

/-- Models path.isAbsolute on posix-style paths. -/
def jsIsAbsolute (p : String) : Bool :=
  match p.data with
  | '/' :: _ => true
  | _ => false

/-- Models path.posix.join on two plain segments (no dot segments or
duplicate separators, which never occur in the inputs considered). -/
def posixJoin (a b : String) : String :=
  if a = "" then b else if b = "" then a else a ++ "/" ++ b

/-- Models CscopeQuery.getFullPath (lines 82-88); `rootPath` is the
workspace root, the empty string when vscode.workspace.rootPath is
undefined. -/
def getFullPath (rootPath file : String) : String :=
  if jsIsAbsolute file then file else posixJoin rootPath file

/-! ## Field extraction (setResults lines 97-103) -/

/-- Index of the first space, `line.indexOf(' ')`. -/
def fileLast (line : String) : Int := jsIndexOfFrom line ' ' 0

/-- Index of the second space, `line.indexOf(' ', file_last + 1)`. -/
def funcLast (line : String) : Int := jsIndexOfFrom line ' ' (fileLast line + 1)

/-- Index of the third space, `line.indexOf(' ', func_last + 1)`. -/
def lineLast (line : String) : Int := jsIndexOfFrom line ' ' (funcLast line + 1)

/-- The raw text handed to parseInt, `line.slice(func_last + 1, line_last)`. -/
def lnumField (line : String) : String :=
  jsSlice line (funcLast line + 1) (lineLast line)

/-- The four positionally extracted fields of one output line.  `lnum` is
the stored zero-based line number; `none` models the NaN that parseInt
yields on a non-numeric field (NaN - 1 is still NaN). -/
structure ParsedLine where
  file : String
  func : String
  lnum : Option Int
  rest : String
deriving DecidableEq

/-- Models lines 97-103 of setResults: locate the first three spaces and
slice the four fields out, resolving the file against the root. -/
def parseLine (rootPath line : String) : ParsedLine :=
  ⟨getFullPath rootPath (jsSlice line 0 (fileLast line)),
    jsSlice line (fileLast line + 1) (funcLast line),
    (jsParseInt (lnumField line)).map (· - 1),
    jsSlice line (lineLast line + 1) (line.length : Int)⟩

/-! ## Item construction (setResults lines 104-131) -/

/-- Models `document.lineAt(lnum).text` on a document given as its list
of lines: vscode throws on an out-of-range (or NaN) line number, modelled
by `none`. -/
def lineAtM (fileLines : List String) (lnum : Int) : Option String :=
  if h : 0 ≤ lnum ∧ lnum.toNat < fileLines.length then
    some (fileLines.get ⟨lnum.toNat, h.2⟩)
  else none

/-- The text searched for in the target line (lines 111-117): the parsed
function name for a callee query, the original pattern otherwise. -/
def needleFor (qtype pattern func : String) : String :=
  if qtype = "callee" then func else pattern

/-- Outcome of `text.search(needle)`: `ok i` is the returned index (-1
when no match), `error` models the SyntaxError thrown on an invalid
regular expression. -/
abbrev SearchFn := String → String → Except Unit Int

/-- Models the body of the per-line loop of setResults (lines 93-131) for
one line.  `search` stands for String.prototype.search, `provider` for
vscode.workspace.openTextDocument (`none` models a failed open).  `none`
is a line that contributes no item: too short, unopenable file, invalid
line number, or a search that threw — every throwing step lands in the
catch block, which only warns and moves on. -/
def processLine (search : SearchFn) (provider : String → Option (List String))
    (qtype pattern rootPath line : String) : Option ItemM :=
  if line.length < 3 then none
  else
    match provider (parseLine rootPath line).file with
    | none => none
    | some fileLines =>
      match (parseLine rootPath line).lnum with
      | none => none
      | some ln =>
        match lineAtM fileLines ln with
        | none => none
        | some text =>
          match search (needleFor qtype pattern (parseLine rootPath line).func) text with
          | .error _ => none
          | .ok cnum0 =>
            some ⟨(parseLine rootPath line).file,
                  (parseLine rootPath line).func,
                  ln,
                  if cnum0 = -1 then 0 else cnum0,
                  ln,
                  (if cnum0 = -1 then 0 else cnum0) +
                    (if cnum0 = -1 then 0
                     else ((needleFor qtype pattern (parseLine rootPath line).func).length : Int)),
                  (parseLine rootPath line).rest,
                  text⟩

/-- The loop of setResults over an already split list of lines, in order. -/
def setResultsLines (search : SearchFn) (provider : String → Option (List String))
    (qtype pattern rootPath : String) (lines : List String) : List ItemM :=
  lines.filterMap (processLine search provider qtype pattern rootPath)

/-- Models CscopeQuery.setResults (lines 90-133): split the raw output on
newlines and process each line. -/
def setResults (search : SearchFn) (provider : String → Option (List String))
    (qtype pattern rootPath output : String) : List ItemM :=
  setResultsLines search provider qtype pattern rootPath (output.splitOn "\n")

/-! ## A model of the ECMAScript regex search on the fragment exercised

String.prototype.search compiles its string argument as a regular
expression.  The model below covers patterns made of literal characters
and the dot wildcard; any other metacharacter is outside the modelled
fragment and mapped to the error case (for a lone parenthesis this
coincides with the SyntaxError ECMAScript raises).  Concrete theorem
inputs stay inside this fragment. -/

inductive RTok where
  | lit (c : Char)
  | dot
deriving DecidableEq

/-- Compile a pattern string to tokens; metacharacters other than the dot
are not modelled and yield an error. -/
def parseRegex : List Char → Except Unit (List RTok)
  | [] => .ok []
  | c :: cs =>
    if c = '.' then (parseRegex cs).map (RTok.dot :: ·)
    else if c ∈ ['\\', '^', '$', '|', '?', '*', '+', '(', ')', '[', ']', '{', '}'] then
      .error ()
    else (parseRegex cs).map (RTok.lit c :: ·)

/-- One token against one character: the dot matches anything except a
line terminator. -/
def tokMatches : RTok → Char → Bool
  | .lit c, d => c = d
  | .dot, d => d ≠ '\n'

/-- Whether the token list matches a prefix of the character list. -/
def matchAt : List RTok → List Char → Bool
  | [], _ => true
  | _ :: _, [] => false
  | t :: ts, c :: cs => tokMatches t c && matchAt ts cs

/-- Position of the leftmost match of the token list inside the text. -/
def firstMatch (toks : List RTok) : List Char → Option Nat
  | [] => if matchAt toks [] then some 0 else none
  | c :: cs =>
    if matchAt toks (c :: cs) then some 0 else (firstMatch toks cs).map (· + 1)

/-- Models `text.search(pat)` on the fragment above: -1 when no match,
an error when the pattern does not compile. -/
def jsRegexSearch : SearchFn := fun pat text =>
  match parseRegex pat.data with
  | .error _ => .error ()
  | .ok toks =>
    match firstMatch toks text.data with
    | some i => .ok (i : Int)
    | none => .ok (-1)

/-- Position of the first literal occurrence of needle inside hay, for
comparison with the regex search. -/
def literalIndexOf (needle hay : String) : Option Nat :=
  firstMatch (needle.data.map RTok.lit) hay.data

end CscopeQuery

/-! ## Concrete external collaborators used by the closed theorems -/

/-- A text-document provider holding one file named a at the root, whose
single line is za. -/
def providerA : String → Option (List String) :=
  fun f => if f = "a" then some ["za"] else none

/-- A provider holding one one-line file named f.c. -/
def providerF : String → Option (List String) :=
  fun f => if f = "f.c" then some ["one line"] else none

/-- A provider holding one file named t.c whose single line contains the
text axc before the literal text a.c. -/
def providerT : String → Option (List String) :=
  fun f => if f = "t.c" then some ["axc a.c"] else none

/-- A provider holding one absolute-path file /a.c with single line zf. -/
def providerS : String → Option (List String) :=
  fun f => if f = "/a.c" then some ["zf"] else none

/-- A build runner that fails on the directory bad and succeeds elsewhere. -/
def runDemo : String → Except String String :=
  fun d => if d = "bad" then .error "boom" else .ok ("ok " ++ d)

/-- A query runner that fails on the directory bad and succeeds elsewhere
with no items. -/
def runQDemo : String → Except String (List ItemM) :=
  fun d => if d = "bad" then .error "boom" else .ok []

namespace Cscope

/-! ## Helper lemmas about the slot scan -/

theorem findSettled_eq_none_of_pending {q : List PromiseSt}
    (h : ∀ s ∈ q, s.isPending = true) : findSettled q = none := by
  induction q with
  | nil => rfl
  | cons s rest ih =>
    simp only [findSettled, h s (List.mem_cons_self s rest),
      ih (fun x hx => h x (List.mem_cons_of_mem s hx)), if_true, Option.map_none']

theorem findSettled_lt_length {q : List PromiseSt} {i : Nat}
    (h : findSettled q = some i) : i < q.length := by
  induction q generalizing i with
  | nil => simp [findSettled] at h
  | cons s rest ih =>
    simp only [findSettled] at h
    by_cases hp : s.isPending
    · rw [if_pos hp] at h
      cases hfs : findSettled rest with
      | none => rw [hfs] at h; simp at h
      | some j =>
        rw [hfs] at h
        simp only [Option.map_some', Option.some.injEq] at h
        have := ih hfs
        simp only [List.length_cons]
        omega
    · rw [if_neg hp] at h
      cases h
      simp only [List.length_cons]
      omega

/-! ## Claim theorems about the build queue -/

/-- C1 (code misbehaves on this claim): with slot 0 already rejected and
slot 1 already fulfilled, a submission is accepted at slot 0, the set of
slots pending at submission is empty, yet the new operation's wait set is
the whole queue (the async filter predicate keeps every slot) and the
spawn callback never runs: Promise.all rejects on the already-rejected
promise, so the accepted build's process is never started, although the
claim says the build spawns once the (empty) pending set has settled and
that earlier-settled operations never block it. -/
theorem c1_accepted_build_never_spawns :
    (buildSingle [PromiseSt.rejected, PromiseSt.fulfilled] true).submitted = .ok 0 ∧
    specPendingSet [PromiseSt.rejected, PromiseSt.fulfilled] = [] ∧
    (buildSingle [PromiseSt.rejected, PromiseSt.fulfilled] true).waitSet =
      [PromiseSt.rejected, PromiseSt.fulfilled] ∧
    (buildSingle [PromiseSt.rejected, PromiseSt.fulfilled] true).spawns = false := by
  decide

/-- C2: when every slot of the queue holds a still-pending operation, a
submission rejects with queue full, spawns no process, waits on nothing,
and leaves the queue exactly as it was. -/
theorem c2_queueFull_when_all_pending (q : List PromiseSt) (procOk : Bool)
    (h : ∀ s ∈ q, s.isPending = true) :
    buildSingle q procOk = ⟨q, .error "queue full", [], false⟩ := by
  unfold buildSingle
  rw [findSettled_eq_none_of_pending h]

/-- Witness for C2: starting from the constructed queue, two accepted
submissions leave both slots pending, and the third submission then fails
with queue full, altering neither stored operation. -/
theorem c2_queueFull_witness :
    (buildSingle (buildSingle initialQueue true).queue true).queue =
      [PromiseSt.pending (some true), PromiseSt.pending (some true)] ∧
    buildSingle [PromiseSt.pending (some true), PromiseSt.pending (some true)] true =
      ⟨[PromiseSt.pending (some true), PromiseSt.pending (some true)],
        .error "queue full", [], false⟩ :=
  ⟨by decide, c2_queueFull_when_all_pending _ _ (by decide)⟩

/-- C8: the queue is built with two slots, both already settled; every
submission preserves the number of slots; an accepted submission rewrites
exactly the chosen slot (every other slot keeps its stored operation, and
the chosen slot now holds a pending operation); and from the freshly
constructed queue the first two submissions are both accepted. -/
theorem c8_capacity_two_fixed :
    (initialQueue.length = 2 ∧ ∀ s ∈ initialQueue, s.isPending = false) ∧
    (∀ q procOk, (buildSingle q procOk).queue.length = q.length) ∧
    (∀ q procOk i, (buildSingle q procOk).submitted = .ok i →
      (∀ j, j ≠ i → (buildSingle q procOk).queue[j]? = q[j]?) ∧
      ((buildSingle q procOk).queue[i]?.map PromiseSt.isPending = some true)) ∧
    (∀ ok1 ok2 : Bool, (buildSingle initialQueue ok1).submitted = .ok 0 ∧
      (buildSingle (buildSingle initialQueue ok1).queue ok2).submitted = .ok 1) := by
  refine ⟨⟨rfl, by decide⟩, ?_, ?_, ?_⟩
  · intro q procOk
    unfold buildSingle
    cases h : findSettled q <;> simp
  · intro q procOk i hsub
    unfold buildSingle at hsub ⊢
    cases h : findSettled q with
    | none => rw [h] at hsub; exact absurd hsub (by simp)
    | some k =>
      rw [h] at hsub
      simp only [Except.ok.injEq] at hsub
      subst hsub
      dsimp only
      constructor
      · intro j hj
        exact List.getElem?_set_ne (Ne.symm hj)
      · rw [List.getElem?_set_self (findSettled_lt_length h)]
        rfl
  · intro ok1 ok2
    cases ok1 <;> cases ok2 <;> decide

/-- C3: build and query are total on every settled per-directory outcome:
build always returns its newline-joined report, a failing directory makes
build emit its error log line, a failing directory makes query emit its
error log line, and a failing directory contributes no items while every
other directory's items are still collected in order. -/
theorem c3_no_error_escapes :
    (∀ run dirs, build run dirs = String.intercalate "\n" (buildResults run dirs)) ∧
    (∀ run dirs d e, d ∈ dirs → run d = .error e →
      ("Failed to build database for " ++ d) ∈ buildLogs run dirs) ∧
    (∀ runQ dirs d e, d ∈ dirs → runQ d = .error e →
      ("Failed to query in " ++ d) ∈ queryLogs runQ dirs) ∧
    (∀ runQ pre d post e, runQ d = .error e →
      queryItems runQ (pre ++ d :: post) =
        queryItems runQ pre ++ queryItems runQ post) := by
  refine ⟨fun _ _ => rfl, ?_, ?_, ?_⟩
  · intro run dirs d e hd hrun
    exact List.mem_filterMap.2 ⟨d, hd, by simp [hrun]⟩
  · intro runQ dirs d e hd hrun
    exact List.mem_filterMap.2 ⟨d, hd, by simp [hrun]⟩
  · intro runQ pre d post e hrun
    induction pre with
    | nil => simp [queryItems, hrun]
    | cons p ps ih => simp [queryItems, ih, List.append_assoc]

/-- Witness for C3: on directories good then bad, where only bad fails,
both log lines are emitted and the failing directory contributes nothing. -/
theorem c3_no_error_escapes_witness :
    ("bad" ∈ ["good", "bad"] ∧ runDemo "bad" = Except.error "boom" ∧
      runQDemo "bad" = Except.error "boom") ∧
    ("Failed to build database for " ++ "bad") ∈ buildLogs runDemo ["good", "bad"] ∧
    ("Failed to query in " ++ "bad") ∈ queryLogs runQDemo ["good", "bad"] ∧
    queryItems runQDemo (["good"] ++ "bad" :: []) =
      queryItems runQDemo ["good"] ++ queryItems runQDemo [] :=
  ⟨⟨by decide, by decide, by decide⟩,
    c3_no_error_escapes.2.1 runDemo ["good", "bad"] "bad" "boom" (by decide) (by decide),
    c3_no_error_escapes.2.2.1 runQDemo ["good", "bad"] "bad" "boom" (by decide) (by decide),
    c3_no_error_escapes.2.2.2 runQDemo ["good"] "bad" [] "boom" (by decide)⟩

/-- C4: for k configured directories build joins exactly k segments with
newlines, in directory order, the n-th segment being the n-th directory's
outcome string, which is the raw resolved stdout on success and the
string Error: followed by the rejection message on failure. -/
theorem c4_build_segments :
    ∀ run dirs,
      build run dirs = String.intercalate "\n" (buildResults run dirs) ∧
      (buildResults run dirs).length = dirs.length ∧
      (∀ n : Nat, (buildResults run dirs)[n]? =
        (dirs[n]?).map (fun d => buildOutcomeStr (run d))) ∧
      (∀ d s, run d = .ok s → buildOutcomeStr (run d) = s) ∧
      (∀ d e, run d = .error e → buildOutcomeStr (run d) = "Error: " ++ e) := by
  intro run dirs
  refine ⟨rfl, List.length_map dirs _, ?_, ?_, ?_⟩
  · intro n
    simp [buildResults]
  · intro d s h
    simp [buildOutcomeStr, h]
  · intro d e h
    simp [buildOutcomeStr, h]

/-- Witness for C4 at a two-directory configuration where the second
directory fails. -/
theorem c4_build_segments_witness :
    (runDemo "good" = Except.ok ("ok " ++ "good") ∧
      runDemo "bad" = Except.error "boom") ∧
    buildOutcomeStr (runDemo "good") = "ok " ++ "good" ∧
    buildOutcomeStr (runDemo "bad") = "Error: " ++ "boom" ∧
    (buildResults runDemo ["good", "bad"]).length = ["good", "bad"].length :=
  ⟨⟨by decide, by decide⟩,
    (c4_build_segments runDemo ["good", "bad"]).2.2.2.1 "good" _ (by decide),
    (c4_build_segments runDemo ["good", "bad"]).2.2.2.2 "bad" "boom" (by decide),
    (c4_build_segments runDemo ["good", "bad"]).2.1⟩

/-- C9: the kind-to-flag mapping is exactly the nine listed pairs, and
every query invocation's argument vector is the configured query flags,
then -f and the database path, then the flag for the kind, then the word. -/
theorem c9_queryType_mapping :
    (QueryType "symbol" = some "-0" ∧ QueryType "definition" = some "-1" ∧
      QueryType "callee" = some "-2" ∧ QueryType "caller" = some "-3" ∧
      QueryType "text" = some "-4" ∧ QueryType "egrep" = some "-5" ∧
      QueryType "file" = some "-6" ∧ QueryType "include" = some "-7" ∧
      QueryType "set" = some "-8") ∧
    (∀ k f, QueryType k = some f →
      (k, f) ∈ [("symbol", "-0"), ("definition", "-1"), ("callee", "-2"),
        ("caller", "-3"), ("text", "-4"), ("egrep", "-5"), ("file", "-6"),
        ("include", "-7"), ("set", "-8")]) ∧
    (∀ qa db k w f, QueryType k = some f →
      querySingleArgs qa db k w = [some qa, some "-f", some db, some f, some w]) := by
  refine ⟨by decide, ?_, ?_⟩
  · intro k f h
    unfold QueryType at h
    split at h <;> simp_all
  · intro qa db k w f h
    simp [querySingleArgs, h]

/-- Witness for C9 at the caller kind. -/
theorem c9_queryType_mapping_witness :
    QueryType "caller" = some "-3" ∧
    ("caller", "-3") ∈ [("symbol", "-0"), ("definition", "-1"), ("callee", "-2"),
      ("caller", "-3"), ("text", "-4"), ("egrep", "-5"), ("file", "-6"),
      ("include", "-7"), ("set", "-8")] ∧
    querySingleArgs "-RqL" "cscope.out" "caller" "main" =
      [some "-RqL", some "-f", some "cscope.out", some "-3", some "main"] :=
  ⟨by decide,
    c9_queryType_mapping.2.1 "caller" "-3" (by decide),
    c9_queryType_mapping.2.2 "-RqL" "cscope.out" "caller" "main" "-3" (by decide)⟩

/-- Witness for C8: an accepted submission at the concrete queue with
slot 0 pending and slot 1 fulfilled rewrites slot 1 only. -/
theorem c8_capacity_witness :
    (buildSingle [PromiseSt.pending (some true), PromiseSt.fulfilled] true).submitted =
      .ok 1 ∧
    (buildSingle [PromiseSt.pending (some true), PromiseSt.fulfilled] true).queue[0]? =
      [PromiseSt.pending (some true), PromiseSt.fulfilled][0]? ∧
    (buildSingle [PromiseSt.pending (some true), PromiseSt.fulfilled] true).queue[1]?.map
      PromiseSt.isPending = some true :=
  ⟨by decide,
    (c8_capacity_two_fixed.2.2.1 _ true 1 (by decide)).1 0 (by decide),
    (c8_capacity_two_fixed.2.2.1 _ true 1 (by decide)).2⟩

end Cscope

namespace CscopeQuery

/-! ## Claim theorems about the query result parser -/

/-- C7: the documented example line parses to the absolute file /src/a.c,
symbol myFunc, stored zero-based line 11, and the remainder keeps all the
whitespace after the third separator; the already absolute path is left
untouched by resolution. -/
theorem c7_example_line_parses :
    parseLine "/root" "/src/a.c myFunc 12 int myFunc(void) \x7b" =
      ⟨"/src/a.c", "myFunc", some 11, "int myFunc(void) \x7b"⟩ ∧
    jsIsAbsolute "/src/a.c" = true ∧
    getFullPath "/root" "/src/a.c" = "/src/a.c" := by
  decide

/-- C5 fails as stated: the line a b 12 is long enough and has only two
whitespace separators, yet it is not skipped — its misparsed fields still
resolve (file a opens, line 0 exists, the needle is found), so an item is
produced; no separator-count check exists in the code. -/
theorem c5_counterexample :
    (("a b 12").data.filter (fun c => c = ' ')).length = 2 ∧
    3 ≤ ("a b 12").length ∧
    setResultsLines jsRegexSearch providerA "symbol" "a" "" ["a b 12"] =
      [⟨"a", "b", 0, 1, 0, 2, "a b 12", "za"⟩] := by
  decide

/-- C5 amended: when the line-number field parses, the stored number is
the parsed value minus one; when it does not parse, the NaN line index
makes the line lookup fail, so the line yields no item; and a line that
yields no item leaves the rest of the batch untouched.  (A line with
fewer than three separators is not explicitly rejected: it is skipped
only when its misparsed fields make a later step fail.) -/
theorem c5_amended_line_numbers :
    (∀ rootPath line n, jsParseInt (lnumField line) = some n →
      (parseLine rootPath line).lnum = some (n - 1)) ∧
    (∀ search provider qtype pattern rootPath line,
      jsParseInt (lnumField line) = none →
      processLine search provider qtype pattern rootPath line = none) ∧
    (∀ search provider qtype pattern rootPath pre line post,
      processLine search provider qtype pattern rootPath line = none →
      setResultsLines search provider qtype pattern rootPath (pre ++ line :: post) =
        setResultsLines search provider qtype pattern rootPath pre ++
          setResultsLines search provider qtype pattern rootPath post) := by
  refine ⟨?_, ?_, ?_⟩
  · intro rootPath line n h
    simp [parseLine, h]
  · intro search provider qtype pattern rootPath line h
    have hl : (parseLine rootPath line).lnum = none := by simp [parseLine, h]
    unfold processLine
    split
    · rfl
    · cases hprov : provider (parseLine rootPath line).file with
      | none => rfl
      | some fileLines => rw [hl]
  · intro search provider qtype pattern rootPath pre line post h
    simp [setResultsLines, List.filterMap_append, List.filterMap_cons_none h]

/-- Witness for the amended C5 on concrete lines with a numeric and with
a non-numeric line-number field. -/
theorem c5_amended_line_numbers_witness :
    (jsParseInt (lnumField "/a.c f 12 r") = some 12 ∧
      (parseLine "" "/a.c f 12 r").lnum = some (12 - 1)) ∧
    (jsParseInt (lnumField "/a.c f xx r") = none ∧
      processLine jsRegexSearch providerS "symbol" "f" "" "/a.c f xx r" = none) ∧
    setResultsLines jsRegexSearch providerS "symbol" "f" ""
        (["/a.c f 1 zf"] ++ "/a.c f xx r" :: []) =
      setResultsLines jsRegexSearch providerS "symbol" "f" "" ["/a.c f 1 zf"] ++
        setResultsLines jsRegexSearch providerS "symbol" "f" "" [] :=
  ⟨⟨by decide, c5_amended_line_numbers.1 "" "/a.c f 12 r" 12 (by decide)⟩,
    ⟨by decide,
      c5_amended_line_numbers.2.1 jsRegexSearch providerS "symbol" "f" "" "/a.c f xx r"
        (by decide)⟩,
    c5_amended_line_numbers.2.2 jsRegexSearch providerS "symbol" "f" ""
      ["/a.c f 1 zf"] "/a.c f xx r" [] (by decide)⟩

/-- C6 fails as stated: for the line f.c main 7 x the target file f.c can
be opened (the provider returns its one line), yet no item is produced,
because the stored line number 6 is outside the one-line file and the
lineAt call throws into the catch block. -/
theorem c6_counterexample :
    providerF (parseLine "" "f.c main 7 x").file = some ["one line"] ∧
    (parseLine "" "f.c main 7 x").lnum = some 6 ∧
    processLine jsRegexSearch providerF "symbol" "main" "" "f.c main 7 x" = none := by
  decide

/-- C6 amended: for a line of full length whose file opens, whose stored
line number lies inside the file, and whose needle search completes, the
needle is the symbol name for a callee query and the pattern otherwise;
a search result other than -1 yields an item highlighted from the match
start over the needle's length, and a -1 result yields the item with
highlight column and length both 0.  (An out-of-range line number, an
unparsable one, or a search that throws drops the item instead.) -/
theorem c6_amended_highlight (search : SearchFn)
    (provider : String → Option (List String))
    (qtype pattern rootPath line : String) (fileLines : List String)
    (ln : Int) (text : String)
    (hlen : ¬ line.length < 3)
    (hopen : provider (parseLine rootPath line).file = some fileLines)
    (hln : (parseLine rootPath line).lnum = some ln)
    (htext : lineAtM fileLines ln = some text) :
    (∀ i : Int,
      search (needleFor qtype pattern (parseLine rootPath line).func) text = .ok i →
      ¬ i = -1 →
      processLine search provider qtype pattern rootPath line =
        some ⟨(parseLine rootPath line).file, (parseLine rootPath line).func, ln, i, ln,
          i + ((needleFor qtype pattern (parseLine rootPath line).func).length : Int),
          (parseLine rootPath line).rest, text⟩) ∧
    (search (needleFor qtype pattern (parseLine rootPath line).func) text = .ok (-1) →
      processLine search provider qtype pattern rootPath line =
        some ⟨(parseLine rootPath line).file, (parseLine rootPath line).func, ln, 0, ln, 0,
          (parseLine rootPath line).rest, text⟩) := by
  constructor
  · intro i hsearch hi
    unfold processLine
    rw [if_neg hlen, hopen]
    simp only [hln, htext, hsearch]
    rw [if_neg hi, if_neg hi]
  · intro hsearch
    unfold processLine
    rw [if_neg hlen, hopen]
    simp only [hln, htext, hsearch]
    simp

/-- Witness for the amended C6: a callee query searches for the parsed
function name f, finds it at column 1 of the target line, and the item
spans columns 1 to 2. -/
theorem c6_amended_highlight_witness :
    (¬ ("/a.c f 1 zf").length < 3 ∧
      providerS (parseLine "" "/a.c f 1 zf").file = some ["zf"] ∧
      (parseLine "" "/a.c f 1 zf").lnum = some 0 ∧
      lineAtM ["zf"] 0 = some "zf" ∧
      jsRegexSearch (needleFor "callee" "pat" (parseLine "" "/a.c f 1 zf").func) "zf" =
        .ok 1) ∧
    processLine jsRegexSearch providerS "callee" "pat" "" "/a.c f 1 zf" =
      some ⟨"/a.c", "f", 0, 1, 0, 2, "zf", "zf"⟩ :=
  ⟨⟨by decide, by decide, by decide, by decide, by decide⟩,
    ((c6_amended_highlight jsRegexSearch providerS "callee" "pat" "" "/a.c f 1 zf"
        ["zf"] 0 "zf" (by decide) (by decide) (by decide) (by decide)).1 1
      (by decide) (by decide)).trans (by decide)⟩

/-- C10: the needle is compiled as a regular expression, not matched as a
literal substring: with pattern a.c the target line axc a.c is matched at
column 0 (the dot matches x), although the first literal occurrence of
a.c is at column 4, and the produced item is highlighted at column 0. -/
theorem c10_regex_not_literal_search :
    setResultsLines jsRegexSearch providerT "symbol" "a.c" "" ["t.c f 1 r"] =
      [⟨"t.c", "f", 0, 0, 0, 3, "r", "axc a.c"⟩] ∧
    jsRegexSearch "a.c" "axc a.c" = .ok 0 ∧
    literalIndexOf "a.c" "axc a.c" = some 4 := by
  decide

end CscopeQuery
